import Mathlib

/-!
Shallow embedding of the FitBois 2.0 Consistency Progression Engine
(`src/utils/consistencyCalculator.ts`, the simulation-based variant, plus
`src/types.ts`), together with theorems settling the specification claims.

Numbers from the TypeScript source are modelled as `Int` where negative
values are reachable (week indices, the current-week input) and `Nat` for
counts. The JavaScript expression `user.specialRules?.startingLevel || 5`
treats `0` as falsy, which the embedding reproduces explicitly.
-/

namespace FitBois

/-- `specialRules` object on a user (`src/types.ts`). -/
structure SpecialRules where
  startingLevel : Option Nat
  reactivatedAtWeek : Option Int
  deriving DecidableEq

/-- `User` record (`src/types.ts`); only fields read or written by the
consistency engine are kept, with their source names. -/
structure User where
  id : String
  name : String
  startDate : String
  currentConsistencyLevel : Nat
  cleanWeeks : Nat
  missedWeeks : Nat
  totalPoints : Nat
  isActive : Bool
  specialRules : Option SpecialRules
  deriving DecidableEq

/-- `WorkoutDay` record (`src/types.ts`). -/
structure WorkoutDay where
  id : String
  userId : String
  week : Int
  dayOfWeek : Nat
  date : String
  isCompleted : Bool
  markedBy : String
  deriving DecidableEq

/-- Goal entries as consumed by `updateAllUsersConsistency`
(`goals: { userId: string; isCompleted: boolean }[]`). -/
structure GoalEntry where
  userId : String
  isCompleted : Bool
  deriving DecidableEq

/-- `WeekStatus` interface (`src/utils/consistencyCalculator.ts`). -/
structure WeekStatus where
  week : Int
  isComplete : Bool
  completedWorkouts : Nat
  requiredWorkouts : Nat
  deriving DecidableEq

/-- `ConsistencyUpdate` interface (`src/utils/consistencyCalculator.ts`). -/
structure ConsistencyUpdate where
  userId : String
  cleanWeeks : Nat
  missedWeeks : Nat
  newConsistencyLevel : Nat
  levelChanged : Bool
  totalPoints : Nat
  deriving DecidableEq

/-- `user.specialRules?.startingLevel || 5` — JavaScript `||` falls back to 5
on `undefined` and on the falsy value `0`. -/
def User.startingLevel (u : User) : Nat :=
  match u.specialRules with
  | none => 5
  | some r =>
    match r.startingLevel with
    | none => 5
    | some 0 => 5
    | some (n + 1) => n + 1

/-- `user.specialRules?.reactivatedAtWeek` (`src/types.ts`, line 13). -/
def User.reactivationWeek (u : User) : Option Int :=
  u.specialRules.bind (fun r => r.reactivatedAtWeek)

/-- `getRequiredWorkouts` (`src/types.ts`, lines 96-99): levels 3 and 4 both
require 4 workouts per week, level 5 requires 5. -/
def getRequiredWorkouts (level : Nat) : Nat :=
  if level ≤ 4 then 4 else level

/-- `countCompletedWorkouts` (`consistencyCalculator.ts`, lines 226-236):
number of records of this user, this week, flagged completed. -/
def countCompletedWorkouts (userId : String) (workoutDays : List WorkoutDay)
    (week : Int) : Nat :=
  (workoutDays.filter fun w =>
    w.userId == userId && w.week == week && w.isCompleted).length

/-- `calculateWeekStatus` (`consistencyCalculator.ts`, lines 242-257):
`requiredWorkoutsOverride ?? user.currentConsistencyLevel`. -/
def calculateWeekStatus (user : User) (workoutDays : List WorkoutDay)
    (week : Int) (requiredWorkoutsOverride : Option Nat) : WeekStatus :=
  let completedWorkouts := countCompletedWorkouts user.id workoutDays week
  let requiredWorkouts := requiredWorkoutsOverride.getD user.currentConsistencyLevel
  { week := week
    isComplete := decide (requiredWorkouts ≤ completedWorkouts)
    completedWorkouts := completedWorkouts
    requiredWorkouts := requiredWorkouts }

/-- The ascending week indices `1 .. currentWeek - 1` that the source's
`for (let week = 1; week <= completedWeeks; week++)` loops visit. -/
def weekRange (currentWeek : Int) : List Int :=
  (List.range (currentWeek - 1).toNat).map (fun i => (i : Int) + 1)

/-- One iteration of the shared simulation loop body
(`consistencyCalculator.ts`, lines 281-292 and 373-384). State is
`(simulatedLevel, consecutiveClean)`; `startingLevel` caps regression. -/
def progressStep (startingLevel : Nat) (st : Nat × Nat) (isClean : Bool) :
    Nat × Nat :=
  if isClean then
    if st.2 + 1 ≥ 3 ∧ st.1 > 3 then (st.1 - 1, 0)
    else (st.1, st.2 + 1)
  else
    if st.1 < 5 then (min (st.1 + 1) startingLevel, 0) else (st.1, 0)

/-- `calculateAllWeekStatuses` (`consistencyCalculator.ts`, lines 263-296):
replays every completed week, evaluating each against the level simulated
as active during that week. -/
def calculateAllWeekStatuses (user : User) (workoutDays : List WorkoutDay)
    (currentWeek : Int) : List WeekStatus :=
  if currentWeek - 1 ≤ 0 then []
  else
    ((weekRange currentWeek).foldl
      (fun (acc : List WeekStatus × Nat × Nat) week =>
        let status := calculateWeekStatus user workoutDays week (some acc.2.1)
        (acc.1 ++ [status], progressStep user.startingLevel acc.2 status.isComplete))
      ([], user.startingLevel, 0)).1

/-- One iteration of the counting loop in `calculateConsistencyMetrics`
(`consistencyCalculator.ts`, lines 314-323). State is
`((cleanWeeks, missedWeeks, consecutiveCleanWeeks), currentStreak)`. -/
def metricsStep (acc : (Nat × Nat × Nat) × Nat) (status : WeekStatus) :
    (Nat × Nat × Nat) × Nat :=
  if status.isComplete then
    let streak := acc.2 + 1
    ((acc.1.1 + 1, acc.1.2.1, max acc.1.2.2 streak), streak)
  else
    ((acc.1.1, acc.1.2.1 + 1, acc.1.2.2), 0)

/-- `calculateConsistencyMetrics` (`consistencyCalculator.ts`, lines 302-330):
returns `(cleanWeeks, missedWeeks, consecutiveCleanWeeks)`. -/
def calculateConsistencyMetrics (user : User) (workoutDays : List WorkoutDay)
    (currentWeek : Int) : Nat × Nat × Nat :=
  ((calculateAllWeekStatuses user workoutDays currentWeek).foldl
    metricsStep ((0, 0, 0), 0)).1

/-- `simulateProgression` (`consistencyCalculator.ts`, lines 356-388): walks
the completed weeks chronologically; each week's requirement is the level
simulated as active then (`required = simulatedLevel`). -/
def simulateProgression (user : User) (workoutDays : List WorkoutDay)
    (currentWeek : Int) : Nat :=
  if currentWeek - 1 ≤ 0 then user.startingLevel
  else
    ((weekRange currentWeek).foldl
      (fun st week =>
        progressStep user.startingLevel st
          (decide (st.1 ≤ countCompletedWorkouts user.id workoutDays week)))
      (user.startingLevel, 0)).1

/-- `shouldBeEliminated` (`consistencyCalculator.ts`, lines 428-434): reads
the user's stored `currentConsistencyLevel` and the supplied missed-week
count. -/
def shouldBeEliminated (user : User) (missedWeeks : Nat) : Bool :=
  user.currentConsistencyLevel == 5 && decide (2 ≤ missedWeeks)

/-- `calculateConsistencyUpdate` (`consistencyCalculator.ts`, lines 439-466). -/
def calculateConsistencyUpdate (user : User) (workoutDays : List WorkoutDay)
    (currentWeek : Int) (completedGoals : Nat) : ConsistencyUpdate :=
  let m := calculateConsistencyMetrics user workoutDays currentWeek
  let newConsistencyLevel := simulateProgression user workoutDays currentWeek
  { userId := user.id
    cleanWeeks := m.1
    missedWeeks := m.2.1
    newConsistencyLevel := newConsistencyLevel
    levelChanged := newConsistencyLevel != user.currentConsistencyLevel
    totalPoints := completedGoals + m.1 }

/-- `updateAllUsersConsistency` (`consistencyCalculator.ts`, lines 471-495):
maps over users, skipping inactive ones, recomputing the snapshot fields and
the elimination verdict for the rest. -/
def updateAllUsersConsistency (users : List User)
    (workoutDays : List WorkoutDay) (goals : List GoalEntry)
    (currentWeek : Int) : List User :=
  users.map fun user =>
    if !user.isActive then user
    else
      let userCompletedGoals :=
        (goals.filter fun g => g.userId == user.id && g.isCompleted).length
      let update := calculateConsistencyUpdate user workoutDays currentWeek userCompletedGoals
      let eliminated := shouldBeEliminated user update.missedWeeks
      { user with
        cleanWeeks := update.cleanWeeks
        missedWeeks := update.missedWeeks
        currentConsistencyLevel := update.newConsistencyLevel
        totalPoints := update.totalPoints
        isActive := !eliminated }

/-- Workout-history builder mirroring the test suite's `createWorkouts`
helper: week `i+1` gets `weekWorkouts[i]` completed records on days
`1 .. count`. -/
def mkWorkouts (userId : String) (weekWorkouts : List Nat) : List WorkoutDay :=
  weekWorkouts.enum.flatMap fun p =>
    (List.range p.2).map fun d =>
      { id := ""
        userId := userId
        week := (p.1 : Int) + 1
        dayOfWeek := d + 1
        date := ""
        isCompleted := true
        markedBy := "user" }

/-- A default active participant at stored level `level`, no special rules. -/
def mkUser (id : String) (level : Nat) : User :=
  { id := id
    name := id
    startDate := ""
    currentConsistencyLevel := level
    cleanWeeks := 0
    missedWeeks := 0
    totalPoints := 0
    isActive := true
    specialRules := none }

example : simulateProgression (mkUser "u1" 5) (mkWorkouts "u1" [5, 5, 5]) 4 = 4 := by decide

example : simulateProgression (mkUser "u1" 5) (mkWorkouts "u1" [5, 5, 5, 4, 4, 4]) 7 = 3 := by
  decide

example :
    calculateConsistencyMetrics (mkUser "u1" 5) (mkWorkouts "u1" [3, 5, 5, 5, 3]) 6 =
      (3, 2, 3) := by decide

/-- Modelled from the spec: state of the StintEliminationTracker replay
(§4.4) — the repository's test suite imports `calculateStintMissedWeeks`
from the calculator module, but no implementation of it exists under `src`. -/
structure StintState where
  level : Nat
  streak : Nat
  stintMissed : Nat
  deriving DecidableEq

/-- Modelled from the spec: whether a week may contribute to `stintMissed`
given the reactivation checkpoint — "weeks strictly before the checkpoint
never contribute to `stintMissed` regardless of outcome" (§4.4 (d)). -/
def stintWeekCounts (checkpoint : Option Int) (week : Int) : Bool :=
  match checkpoint with
  | none => true
  | some c => decide (c ≤ week)

/-- Modelled from the spec: one week of the StintEliminationTracker replay
(§4.4). The tier/streak transitions are those of §4.3; `stintMissed`
increments on a miss while the simulated tier is 5 (and the week is at or
after the checkpoint) and resets when a transition leaves tier 5 via
progression or lands back on tier 5 via regression. -/
def stintStep (startingLevel : Nat) (checkpoint : Option Int) (uid : String)
    (days : List WorkoutDay) (st : StintState) (week : Int) : StintState :=
  let completed := countCompletedWorkouts uid days week
  if decide (st.level ≤ completed) then
    if st.streak + 1 ≥ 3 ∧ st.level > 3 then
      { level := st.level - 1
        streak := 0
        stintMissed := if st.level == 5 then 0 else st.stintMissed }
    else { st with streak := st.streak + 1 }
  else
    let counted :=
      if st.level == 5 && stintWeekCounts checkpoint week
      then st.stintMissed + 1 else st.stintMissed
    if st.level < 5 then
      let newLevel := min (st.level + 1) startingLevel
      { level := newLevel
        streak := 0
        stintMissed := if newLevel == 5 then 0 else counted }
    else { st with streak := 0, stintMissed := counted }

/-- Modelled from the spec: `calculateStintMissedWeeks` (§4.4
StintEliminationTracker) — imported by
`src/utils/consistencyCalculator.test.ts` but missing from
`src/utils/consistencyCalculator.ts`. Replays the identical week-by-week
loop as the progression simulator with the extra `stintMissed` counter. -/
def calculateStintMissedWeeks (user : User) (workoutDays : List WorkoutDay)
    (currentWeek : Int) : Nat :=
  if currentWeek - 1 ≤ 0 then 0
  else
    ((weekRange currentWeek).foldl
      (stintStep user.startingLevel user.reactivationWeek user.id workoutDays)
      { level := user.startingLevel, streak := 0, stintMissed := 0 }).stintMissed

/-- Second-chance participant of the test suite: reactivated at week 3. -/
def reactivatedUser : User :=
  { mkUser "u1" 5 with
    specialRules := some { startingLevel := none, reactivatedAtWeek := some 3 } }

example : calculateStintMissedWeeks (mkUser "u1" 5) (mkWorkouts "u1" [3, 5, 5, 5]) 5 = 0 := by
  decide

example : calculateStintMissedWeeks (mkUser "u1" 5) (mkWorkouts "u1" [3, 5, 5, 5, 3]) 6 = 0 := by
  decide

example : calculateStintMissedWeeks (mkUser "u1" 5) (mkWorkouts "u1" [3, 3]) 3 = 2 := by decide

example :
    calculateStintMissedWeeks (mkUser "u1" 5) (mkWorkouts "u1" [3, 5, 5, 5, 3, 3]) 7 = 1 := by
  decide

example : calculateStintMissedWeeks reactivatedUser (mkWorkouts "u1" [3, 3, 5, 5]) 5 = 0 := by
  decide

example : calculateStintMissedWeeks reactivatedUser (mkWorkouts "u1" [3, 3, 3, 3]) 5 = 2 := by
  decide

example : calculateStintMissedWeeks reactivatedUser (mkWorkouts "u1" [3, 3, 3, 5]) 5 = 1 := by
  decide

/-- Claim C1: the code's elimination path contradicts the claim. On weekly
completed counts [3,5,5,5,3] with currentWeek = 6 and ceiling 5 the claim
(and the repository's own "Sibi scenario" test) says the participant is NOT
eliminated — the stint-missed count is 0 — yet `updateAllUsersConsistency`
marks them inactive, because `shouldBeEliminated` receives the TOTAL
missed-week count (2) together with the stored tier rather than the
stint-scoped count and the final simulated tier. -/
theorem c1_stint_elimination_code_bug :
    (updateAllUsersConsistency [mkUser "sibi" 5] (mkWorkouts "sibi" [3, 5, 5, 5, 3]) [] 6).map
        (fun x => x.isActive) = [false] ∧
    calculateStintMissedWeeks (mkUser "sibi" 5) (mkWorkouts "sibi" [3, 5, 5, 5, 3]) 6 = 0 ∧
    shouldBeEliminated (mkUser "sibi" 5) 0 = false := by
  exact ⟨by decide, by decide, by decide⟩

/-- Claim C2: the code's per-week requirement contradicts the claim. The
simulation uses `required = simulatedLevel`, so once the simulated tier is 3
the requirement is 3, while the claim (and `getRequiredWorkouts` in
`src/types.ts`, and the repository's own tests) say tiers 3 and 4 both
require 4. On [5,5,5,4,4,4,3] with currentWeek = 8, week 7 is simulated at
tier 3 with requirement 3, is judged clean, and the final tier stays 3 —
the repository's test expects a miss and regression to tier 4. -/
theorem c2_requirement_policy_code_bug :
    ((calculateAllWeekStatuses (mkUser "u1" 5) (mkWorkouts "u1" [5, 5, 5, 4, 4, 4, 3]) 8).map
        (fun s => s.requiredWorkouts)) = [5, 5, 5, 4, 4, 4, 3] ∧
    getRequiredWorkouts 3 = 4 ∧
    (calculateConsistencyUpdate (mkUser "u1" 5) (mkWorkouts "u1" [5, 5, 5, 4, 4, 4, 3]) 8
        0).newConsistencyLevel = 3 := by
  exact ⟨by decide, by decide, by decide⟩

/-- Claim C3: `updateAllUsersConsistency` is not idempotent. A stored-tier-4
active user with no workout records and currentWeek = 3 survives the first
application (the verdict reads the stale stored tier 4) and is updated to
simulated tier 5 with 2 missed weeks; the second application then eliminates
them, so applying the orchestrator twice differs from applying it once. -/
theorem c3_idempotence_code_bug :
    updateAllUsersConsistency (updateAllUsersConsistency [mkUser "u1" 4] [] [] 3) [] [] 3 ≠
        updateAllUsersConsistency [mkUser "u1" 4] [] [] 3 ∧
    (updateAllUsersConsistency [mkUser "u1" 4] [] [] 3).map (fun x => x.isActive) = [true] ∧
    (updateAllUsersConsistency (updateAllUsersConsistency [mkUser "u1" 4] [] [] 3) [] [] 3).map
        (fun x => x.isActive) = [false] := by
  exact ⟨by decide, by decide, by decide⟩

/-- Claim C6: for ceiling 5, weekly counts [5,5,5,4,4,4] and currentWeek = 7
the engine returns tier 3, cleanWeeks 6, missedWeeks 0, performing two tier
transitions in one replay: the tier after weeks 1-3 is 4, and weeks 4-6 are
evaluated against the tier-4 requirement of 4. -/
theorem c6_double_progression_scenario :
    (calculateConsistencyUpdate (mkUser "u1" 5) (mkWorkouts "u1" [5, 5, 5, 4, 4, 4]) 7
        0).newConsistencyLevel = 3 ∧
    (calculateConsistencyUpdate (mkUser "u1" 5) (mkWorkouts "u1" [5, 5, 5, 4, 4, 4]) 7
        0).cleanWeeks = 6 ∧
    (calculateConsistencyUpdate (mkUser "u1" 5) (mkWorkouts "u1" [5, 5, 5, 4, 4, 4]) 7
        0).missedWeeks = 0 ∧
    simulateProgression (mkUser "u1" 5) (mkWorkouts "u1" [5, 5, 5, 4, 4, 4]) 4 = 4 ∧
    ((calculateAllWeekStatuses (mkUser "u1" 5) (mkWorkouts "u1" [5, 5, 5, 4, 4, 4]) 7).map
        (fun s => s.requiredWorkouts)) = [5, 5, 5, 4, 4, 4] := by
  exact ⟨by decide, by decide, by decide, by decide, by decide⟩

/-- A completed workout record used to exhibit per-record counting: three
identical copies share (participant, week, dayOfWeek) = ("u1", 1, 1). -/
def duplicatedDay : WorkoutDay :=
  { id := ""
    userId := "u1"
    week := 1
    dayOfWeek := 1
    date := ""
    isCompleted := true
    markedBy := "user" }

/-- Claim C10: completed-workout counting is per record, not per distinct
day. A history of three completed records all sharing
(participant, week, dayOfWeek) counts 3 completed workouts, so a stored
tier-3 user's week is judged clean although the history contains only one
distinct training day, fewer than the required 3. -/
theorem c10_per_record_counting :
    countCompletedWorkouts "u1" [duplicatedDay, duplicatedDay, duplicatedDay] 1 = 3 ∧
    (calculateWeekStatus (mkUser "u1" 3) [duplicatedDay, duplicatedDay, duplicatedDay] 1
        none).isComplete = true ∧
    (calculateWeekStatus (mkUser "u1" 3) [duplicatedDay, duplicatedDay, duplicatedDay] 1
        none).requiredWorkouts = 3 ∧
    (([duplicatedDay, duplicatedDay, duplicatedDay].map
        (fun w => w.dayOfWeek)).dedup).length = 1 := by
  exact ⟨by decide, by decide, by decide, by decide⟩

/-- One simulation step keeps the level at or below the ceiling. -/
theorem progressStep_le (L : Nat) (st : Nat × Nat) (b : Bool) (h : st.1 ≤ L) :
    (progressStep L st b).1 ≤ L := by
  unfold progressStep
  split
  · split
    · exact le_trans (Nat.sub_le _ _) h
    · exact h
  · split
    · exact Nat.min_le_right _ _
    · exact h

/-- The whole simulation fold keeps the level at or below the ceiling,
whatever per-week cleanliness the history induces. -/
theorem foldl_progress_le (L : Nat) (g : Nat × Nat → Int → Bool) :
    ∀ (ws : List Int) (st : Nat × Nat), st.1 ≤ L →
      ((ws.foldl (fun st w => progressStep L st (g st w)) st).1 ≤ L) := by
  intro ws
  induction ws with
  | nil => intro st h; exact h
  | cons w ws ih =>
    intro st h
    exact ih (progressStep L st (g st w)) (progressStep_le L st (g st w) h)

/-- Bonus participant of the spec's ceiling scenario: ceiling tier 4. -/
def bonusUser : User :=
  { mkUser "u1" 4 with
    specialRules := some { startingLevel := some 4, reactivatedAtWeek := none } }

/-- Claim C5: the simulated tier never exceeds the participant's ceiling
(`specialRules.startingLevel`, default 5) at any current week — regression
is clamped at the ceiling — while progression is not floored at the
ceiling: a participant with ceiling 4 and weekly counts [4,4,4] at
currentWeek = 4 ends at tier 3, strictly below their ceiling. -/
theorem c5_ceiling_bounds_regression_only :
    (∀ (u : User) (days : List WorkoutDay) (cw : Int),
      simulateProgression u days cw ≤ u.startingLevel) ∧
    simulateProgression bonusUser (mkWorkouts "u1" [4, 4, 4]) 4 = 3 := by
  constructor
  · intro u days cw
    unfold simulateProgression
    split
    · exact Nat.le_refl _
    · exact foldl_progress_le u.startingLevel
        (fun st w => decide (st.1 ≤ countCompletedWorkouts u.id days w))
        (weekRange cw) (u.startingLevel, 0) (Nat.le_refl _)
  · decide

/-- Permuting the workout history does not change the per-week completed
count: the count is the length of a filter, and filtering respects
permutations. -/
theorem countCompletedWorkouts_perm (uid : String) (week : Int)
    {l l2 : List WorkoutDay} (h : l.Perm l2) :
    countCompletedWorkouts uid l week = countCompletedWorkouts uid l2 week :=
  (h.filter _).length_eq

/-- Permuting the workout history does not change the replayed statuses. -/
theorem calculateAllWeekStatuses_perm (u : User) (cw : Int)
    {l l2 : List WorkoutDay} (h : l.Perm l2) :
    calculateAllWeekStatuses u l cw = calculateAllWeekStatuses u l2 cw := by
  have hfun : (fun (acc : List WeekStatus × Nat × Nat) week =>
      let status := calculateWeekStatus u l week (some acc.2.1)
      (acc.1 ++ [status], progressStep u.startingLevel acc.2 status.isComplete)) =
      (fun (acc : List WeekStatus × Nat × Nat) week =>
      let status := calculateWeekStatus u l2 week (some acc.2.1)
      (acc.1 ++ [status], progressStep u.startingLevel acc.2 status.isComplete)) := by
    funext acc week
    simp only [calculateWeekStatus, countCompletedWorkouts_perm u.id week h]
  unfold calculateAllWeekStatuses
  rw [hfun]

/-- Permuting the workout history does not change the simulated tier. -/
theorem simulateProgression_perm (u : User) (cw : Int)
    {l l2 : List WorkoutDay} (h : l.Perm l2) :
    simulateProgression u l cw = simulateProgression u l2 cw := by
  have hfun : (fun (st : Nat × Nat) week =>
      progressStep u.startingLevel st
        (decide (st.1 ≤ countCompletedWorkouts u.id l week))) =
      (fun (st : Nat × Nat) week =>
      progressStep u.startingLevel st
        (decide (st.1 ≤ countCompletedWorkouts u.id l2 week))) := by
    funext st week
    rw [countCompletedWorkouts_perm u.id week h]
  unfold simulateProgression
  rw [hfun]

/-- Permuting the workout history does not change the derived metrics. -/
theorem calculateConsistencyMetrics_perm (u : User) (cw : Int)
    {l l2 : List WorkoutDay} (h : l.Perm l2) :
    calculateConsistencyMetrics u l cw = calculateConsistencyMetrics u l2 cw := by
  unfold calculateConsistencyMetrics
  rw [calculateAllWeekStatuses_perm u cw h]

/-- Claim C7: the consistency update is independent of the order in which
workout records are supplied — any permutation of the history yields an
identical `ConsistencyUpdate`. -/
theorem c7_order_independence (u : User) (cw : Int) (goalsCount : Nat)
    {l l2 : List WorkoutDay} (h : l.Perm l2) :
    calculateConsistencyUpdate u l cw goalsCount =
      calculateConsistencyUpdate u l2 cw goalsCount := by
  unfold calculateConsistencyUpdate
  rw [calculateConsistencyMetrics_perm u cw h, simulateProgression_perm u cw h]

/-- Concrete completed records for the order-independence witness. -/
def wdA : WorkoutDay :=
  { id := "a", userId := "u1", week := 1, dayOfWeek := 1, date := ""
    isCompleted := true, markedBy := "user" }

/-- Second concrete completed record for the order-independence witness. -/
def wdB : WorkoutDay :=
  { id := "b", userId := "u1", week := 1, dayOfWeek := 2, date := ""
    isCompleted := true, markedBy := "user" }

/-- Witness for claim C7 at a concrete two-record swap. -/
theorem c7_order_independence_witness :
    List.Perm [wdA, wdB] [wdB, wdA] ∧
    calculateConsistencyUpdate (mkUser "u1" 5) [wdA, wdB] 2 0 =
      calculateConsistencyUpdate (mkUser "u1" 5) [wdB, wdA] 2 0 :=
  ⟨List.Perm.swap wdB wdA [],
   c7_order_independence (mkUser "u1" 5) 2 0 (List.Perm.swap wdB wdA [])⟩

/-- Before the challenge starts every derived metric is zero. -/
theorem calculateConsistencyMetrics_not_started (u : User) (days : List WorkoutDay)
    (cw : Int) (h : cw - 1 ≤ 0) :
    calculateConsistencyMetrics u days cw = (0, 0, 0) := by
  unfold calculateConsistencyMetrics calculateAllWeekStatuses
  rw [if_pos h]
  rfl

/-- Before the challenge starts the missed-week count of the update is 0. -/
theorem update_missed_not_started (u : User) (days : List WorkoutDay)
    (cw : Int) (goalsCount : Nat) (h : cw - 1 ≤ 0) :
    (calculateConsistencyUpdate u days cw goalsCount).missedWeeks = 0 := by
  unfold calculateConsistencyUpdate
  simp [calculateConsistencyMetrics_not_started u days cw h]

/-- With 0 missed weeks, the elimination check always answers `false`. -/
theorem shouldBeEliminated_zero (u : User) : shouldBeEliminated u 0 = false := by
  simp [shouldBeEliminated]

/-- Before the challenge starts the orchestrator flips nobody's `isActive`. -/
theorem updateAll_isActive_not_started (users : List User) (days : List WorkoutDay)
    (goals : List GoalEntry) (cw : Int) (h : cw - 1 ≤ 0) :
    (updateAllUsersConsistency users days goals cw).map (fun x => x.isActive) =
      users.map (fun x => x.isActive) := by
  induction users with
  | nil => rfl
  | cons v vs ih =>
    simp only [updateAllUsersConsistency, List.map_cons] at *
    rw [ih]
    by_cases hv : v.isActive
    · simp [hv, update_missed_not_started v days cw _ h, shouldBeEliminated_zero]
    · simp [hv]

/-- Claim C8: `currentWeek ≤ 0` is not an error: the week-status list is
empty, the simulated tier equals the participant's ceiling
(`specialRules.startingLevel`, default 5), the elimination check on the
computed missed-week count answers `false`, and the orchestrator leaves
every user's `isActive` unchanged. -/
theorem c8_not_started_defaults (u : User) (users : List User)
    (days : List WorkoutDay) (goals : List GoalEntry) (goalsCount : Nat)
    (cw : Int) (h : cw ≤ 0) :
    calculateAllWeekStatuses u days cw = [] ∧
    simulateProgression u days cw = u.startingLevel ∧
    shouldBeEliminated u (calculateConsistencyUpdate u days cw goalsCount).missedWeeks = false ∧
    (updateAllUsersConsistency users days goals cw).map (fun x => x.isActive) =
      users.map (fun x => x.isActive) := by
  have h1 : cw - 1 ≤ 0 := by omega
  refine ⟨?_, ?_, ?_, ?_⟩
  · unfold calculateAllWeekStatuses
    rw [if_pos h1]
  · unfold simulateProgression
    rw [if_pos h1]
  · rw [update_missed_not_started u days cw goalsCount h1, shouldBeEliminated_zero]
  · exact updateAll_isActive_not_started users days goals cw h1

/-- Witness for claim C8 at `currentWeek = 0`. -/
theorem c8_not_started_defaults_witness :
    (0 : Int) ≤ 0 ∧
    (calculateAllWeekStatuses (mkUser "u1" 5) [] 0 = [] ∧
      simulateProgression (mkUser "u1" 5) [] 0 = (mkUser "u1" 5).startingLevel ∧
      shouldBeEliminated (mkUser "u1" 5)
        (calculateConsistencyUpdate (mkUser "u1" 5) [] 0 0).missedWeeks = false ∧
      (updateAllUsersConsistency [mkUser "u1" 5] [] [] 0).map (fun x => x.isActive) =
        [mkUser "u1" 5].map (fun x => x.isActive)) :=
  ⟨by decide, c8_not_started_defaults (mkUser "u1" 5) [mkUser "u1" 5] [] [] 0 0 (by decide)⟩

/-- Claim C9: a user whose `isActive` is `false` passes through the
orchestrator with every field unchanged — the output at the same position
is the identical record. -/
theorem c9_inactive_user_unchanged (users : List User) (days : List WorkoutDay)
    (goals : List GoalEntry) (cw : Int) (i : Nat) (u : User)
    (hu : users[i]? = some u) (hinact : u.isActive = false) :
    (updateAllUsersConsistency users days goals cw)[i]? = some u := by
  unfold updateAllUsersConsistency
  rw [List.getElem?_map, hu]
  simp [hinact]

/-- An eliminated participant with non-trivial historical counters. -/
def inactiveUser : User :=
  { id := "gone", name := "gone", startDate := "", currentConsistencyLevel := 5
    cleanWeeks := 7, missedWeeks := 2, totalPoints := 9, isActive := false
    specialRules := none }

/-- Witness for claim C9: a concrete inactive user is returned verbatim. -/
theorem c9_inactive_user_unchanged_witness :
    ([inactiveUser] : List User)[0]? = some inactiveUser ∧
    inactiveUser.isActive = false ∧
    (updateAllUsersConsistency [inactiveUser] [] [] 4)[0]? = some inactiveUser :=
  ⟨rfl, rfl, c9_inactive_user_unchanged [inactiveUser] [] [] 4 0 inactiveUser rfl rfl⟩

/-- One tracker step raises `stintMissed` by at most one, and only on a week
at or after checkpoint `c` whose completed count is below 5 (an increment
requires the simulated tier to be exactly 5 and the week to be a miss). -/
theorem stintStep_bound (L : Nat) (c : Int) (uid : String) (days : List WorkoutDay)
    (st : StintState) (w : Int) :
    (stintStep L (some c) uid days st w).stintMissed ≤
      st.stintMissed +
        (if (decide (c ≤ w) && decide (countCompletedWorkouts uid days w < 5)) = true
         then 1 else 0) := by
  simp only [stintStep, stintWeekCounts]
  by_cases hclean : st.level ≤ countCompletedWorkouts uid days w
  · simp [hclean]
    split
    · dsimp only
      split <;> omega
    · dsimp only
      omega
  · simp [hclean]
    by_cases h5 : st.level = 5
    · by_cases hcw : c ≤ w
      · have hc5 : countCompletedWorkouts uid days w < 5 := by omega
        simp [h5, hcw, hc5]
      · simp [h5, hcw]
    · simp [h5]
      split
      · dsimp only
        split <;> omega
      · dsimp only
        omega

/-- Fold version of `stintStep_bound`: over any week list, `stintMissed`
grows by at most the number of at-or-after-checkpoint weeks whose completed
count is below 5. -/
theorem stint_fold_bound (L : Nat) (c : Int) (uid : String) (days : List WorkoutDay) :
    ∀ (ws : List Int) (st : StintState),
      (ws.foldl (stintStep L (some c) uid days) st).stintMissed ≤
        st.stintMissed +
          (ws.filter fun w =>
            decide (c ≤ w) && decide (countCompletedWorkouts uid days w < 5)).length := by
  intro ws
  induction ws with
  | nil => intro st; simp
  | cons w ws ih =>
    intro st
    have h1 := stintStep_bound L c uid days st w
    have h2 := ih (stintStep L (some c) uid days st w)
    simp only [List.foldl_cons, List.filter_cons]
    by_cases hpw :
        (decide (c ≤ w) && decide (countCompletedWorkouts uid days w < 5)) = true
    · rw [if_pos hpw] at h1 ⊢
      simp only [List.length_cons]
      omega
    · rw [if_neg hpw] at h1 ⊢
      omega

/-- Claim C4: for a participant with a reactivation checkpoint
(`specialRules.reactivatedAtWeek`), the stint-missed-week count is bounded
by the number of replayed weeks at or after the checkpoint that miss the
tier-5 requirement — weeks strictly before the checkpoint never contribute,
regardless of their outcome. -/
theorem c4_pre_checkpoint_never_counts (u : User) (days : List WorkoutDay)
    (cw : Int) (c : Int) (h : u.reactivationWeek = some c) :
    calculateStintMissedWeeks u days cw ≤
      ((weekRange cw).filter fun w =>
        decide (c ≤ w) && decide (countCompletedWorkouts u.id days w < 5)).length := by
  unfold calculateStintMissedWeeks
  rw [h]
  split
  · exact Nat.zero_le _
  · simpa using
      stint_fold_bound u.startingLevel c u.id days (weekRange cw)
        { level := u.startingLevel, streak := 0, stintMissed := 0 }

/-- Witness for claim C4: the reactivated test-suite participant with
history [3,3,5,5] (both misses before the week-3 checkpoint). -/
theorem c4_pre_checkpoint_never_counts_witness :
    reactivatedUser.reactivationWeek = some 3 ∧
    calculateStintMissedWeeks reactivatedUser (mkWorkouts "u1" [3, 3, 5, 5]) 5 ≤
      ((weekRange 5).filter fun w =>
        decide ((3 : Int) ≤ w) &&
          decide (countCompletedWorkouts reactivatedUser.id
            (mkWorkouts "u1" [3, 3, 5, 5]) w < 5)).length :=
  ⟨rfl, c4_pre_checkpoint_never_counts reactivatedUser (mkWorkouts "u1" [3, 3, 5, 5]) 5 3 rfl⟩

end FitBois
